import Mathlib

/-!
# Verification of the image verification pipeline

Shallow embedding of the core of the `image_verification_system`
repository:

* `config.py`              — threshold constants
* `src/lighting_check.py`  — `check_lighting`
* `src/clarity_check.py`   — `check_clarity`
* `src/face_detector.py`   — `detect_face`
* `verifier.py`            — `_preprocess_image`, `verify`,
                             `verify_from_bytes`, `_build_result`,
                             `verify_batch`

Modelling conventions:

* The OpenCV / NumPy / MediaPipe primitives (image decode, resize,
  grayscale conversion, mean, Laplacian variance, face detection) are
  external black boxes.  An image is an abstract type `Img`; the
  primitives are a structure `CV Img` of functions supplied as a
  parameter, exactly the collaborator contracts the pipeline consumes:
  `shape` is `image.shape[:2] = (h, w)`, `resize image (w, h)` is
  `cv2.resize(image, (w, h), interpolation=cv2.INTER_AREA)`,
  `meanGray image` is `np.mean(gray)` for `gray` the grayscale
  conversion of `image`, `lapVar image` is
  `cv2.Laplacian(gray, cv2.CV_64F).var()`, and `detections image` is
  `len(detector.detect(mp_image).detections)`.  The pre-computed
  `gray=` arguments that `verify` passes to `check_lighting` and
  `check_clarity` equal the grayscale conversion each check would
  perform itself, so both paths are embedded as `meanGray` / `lapVar`
  of the image argument.
* Numeric values are exact rationals.  Where a claim depends on
  IEEE-754 binary64 rounding (the resize scale computation), the
  rounding is modelled exactly (see `fl` below).
* The module-level detector state `_model_ready` of `face_detector.py`
  is passed as an explicit boolean parameter.
* Display-only `message` strings built from f-string number formatting
  are omitted from the stage-result records; the constant `message`
  field of the aggregate result (looked up in `ERROR_CODES`) is kept.
* The wall-clock instrumentation (`inference_time_ms`,
  `stage_times_ms`, `_elapsed_ms`, gated by `PERF_LOGGING_ENABLED`)
  is nondeterministic timing data and is not modelled; it never
  affects control flow or classification.
-/

/-! ## config.py -/

/-- config.py: `BLUR_THRESHOLD = 25`. -/
def BLUR_THRESHOLD : ℚ := 25

/-- config.py: `FACE_DETECTION_CONFIDENCE = 0.6`. -/
def FACE_DETECTION_CONFIDENCE : ℚ := 6 / 10

/-- config.py: `LIGHTING_MIN = 40`. -/
def LIGHTING_MIN : ℚ := 40

/-- config.py: `LIGHTING_MAX = 200`. -/
def LIGHTING_MAX : ℚ := 200

/-- config.py: `MAX_IMAGE_DIMENSION = 640`. -/
def MAX_IMAGE_DIMENSION : ℕ := 640

/-- config.py: `PERF_LOGGING_ENABLED = True`. -/
def PERF_LOGGING_ENABLED : Bool := true

/-! ## Status codes (string constants of the three check modules) -/

def GOOD_LIGHTING : String := "GOOD_LIGHTING"

def TOO_DARK : String := "TOO_DARK"

def TOO_BRIGHT : String := "TOO_BRIGHT"

def INVALID_IMAGE : String := "INVALID_IMAGE"

def CLEAR : String := "CLEAR"

def TOO_BLURRY : String := "TOO_BLURRY"

def SUCCESS : String := "SUCCESS"

def NO_FACE : String := "NO_FACE"

def MULTIPLE_FACES : String := "MULTIPLE_FACES"

def MODEL_NOT_FOUND : String := "MODEL_NOT_FOUND"

/-! ## Python numeric helpers -/

/-- Round-half-even on rationals (the rounding mode of Python's
`round` and of IEEE-754 round-to-nearest). -/
def roundHalfEven (q : ℚ) : ℤ :=
  if q - ⌊q⌋ < 1 / 2 then ⌊q⌋
  else if q - ⌊q⌋ > 1 / 2 then ⌊q⌋ + 1
  else if ⌊q⌋ % 2 = 0 then ⌊q⌋ else ⌊q⌋ + 1

/-- Python `round(x, 2)` (as used by the `_result` helpers of the two
check modules): round to two decimal places, half to even. -/
def pyRound2 (q : ℚ) : ℚ := (roundHalfEven (q * 100) : ℚ) / 100

/-- Python `int(x)` for a nonnegative value: truncation toward zero,
returned as a natural number (all uses in the source are on
nonnegative scale products). -/
def pyInt (q : ℚ) : ℕ := (⌊q⌋).toNat

/-! ## Abstract images and the black-box vision primitives -/

/-- The external OpenCV / NumPy / MediaPipe primitives the pipeline
consumes, as collaborator contracts over an abstract image type. -/
structure CV (Img : Type) where
  shape : Img → ℕ × ℕ
  resize : Img → ℕ × ℕ → Img
  meanGray : Img → ℚ
  lapVar : Img → ℚ
  detections : Img → ℕ

/-! ## src/lighting_check.py -/

/-- Stage result of `check_lighting` (the display-only `message` field
is omitted). -/
structure LightingResult where
  status : String
  mean_intensity : ℚ
  min_threshold : ℚ
  max_threshold : ℚ
deriving Repr, DecidableEq

/-- lighting_check.py `_result`: builds the stage dictionary, rounding
the intensity to two decimal places. -/
def lighting_result (status : String) (mean_intensity : ℚ) : LightingResult :=
  ⟨status, pyRound2 mean_intensity, LIGHTING_MIN, LIGHTING_MAX⟩

/-- lighting_check.py `check_lighting(image, gray=None)`: `none` is a
null image (`INVALID_IMAGE` with a `0.0` intensity placeholder);
otherwise classify the mean grayscale intensity against
`LIGHTING_MIN` / `LIGHTING_MAX`. -/
def check_lighting {Img : Type} (cv : CV Img) (image : Option Img) : LightingResult :=
  match image with
  | none => lighting_result INVALID_IMAGE 0
  | some img =>
    let mean_intensity := cv.meanGray img
    if mean_intensity < LIGHTING_MIN then lighting_result TOO_DARK mean_intensity
    else if mean_intensity > LIGHTING_MAX then lighting_result TOO_BRIGHT mean_intensity
    else lighting_result GOOD_LIGHTING mean_intensity

/-! ## src/clarity_check.py -/

/-- Stage result of `check_clarity` (the display-only `message` field
is omitted). -/
structure ClarityResult where
  status : String
  variance : ℚ
  threshold : ℚ
deriving Repr, DecidableEq

/-- clarity_check.py `_result`. -/
def clarity_result (status : String) (variance : ℚ) : ClarityResult :=
  ⟨status, pyRound2 variance, BLUR_THRESHOLD⟩

/-- clarity_check.py `check_clarity(image, gray=None)`: `none` is a
null image (`INVALID_IMAGE` with a `0.0` variance placeholder);
otherwise classify the Laplacian variance against `BLUR_THRESHOLD`. -/
def check_clarity {Img : Type} (cv : CV Img) (image : Option Img) : ClarityResult :=
  match image with
  | none => clarity_result INVALID_IMAGE 0
  | some img =>
    let variance := cv.lapVar img
    if variance < BLUR_THRESHOLD then clarity_result TOO_BLURRY variance
    else clarity_result CLEAR variance

/-! ## src/face_detector.py -/

/-- Stage result of `detect_face` (the display-only `message` field is
omitted). -/
structure FaceResult where
  status : String
  face_count : ℕ
deriving Repr, DecidableEq

/-- face_detector.py `_result`. -/
def face_result (status : String) (face_count : ℕ) : FaceResult :=
  ⟨status, face_count⟩

/-- face_detector.py `detect_face(image)`.  The module-level flag
`_model_ready` (set once at import time by `_load_detector`) is the
explicit parameter `model_ready`; it is tested before the null-image
check.  The detection count is the black-box
`len(detection_result.detections)`. -/
def detect_face {Img : Type} (cv : CV Img) (model_ready : Bool) (image : Option Img) :
    FaceResult :=
  if !model_ready then face_result MODEL_NOT_FOUND 0
  else match image with
  | none => face_result INVALID_IMAGE 0
  | some img =>
    let face_count := cv.detections img
    if face_count = 0 then face_result NO_FACE 0
    else if face_count = 1 then face_result SUCCESS 1
    else face_result MULTIPLE_FACES face_count

/-! ## Exact model of IEEE-754 binary64 arithmetic

`verifier.py` computes the resize scale in Python floats:
`scale = MAX_IMAGE_DIMENSION / max_dim` (correctly rounded true
division of integers), then `int(w * scale)` and `int(h * scale)`
(the integer is converted to the nearest double, the product is
rounded, and the result truncated toward zero).  The rounding to
binary64 (53-bit significand, round-to-nearest, ties-to-even) is
modelled exactly on positive rationals in the normal range; the fuel
bound 1100 covers every binary64 exponent. -/

/-- `exp2floorPos fuel q` computes the unique `e` with
`2 ^ e ≤ q < 2 ^ (e + 1)`, provided `2 ^ (-fuel) ≤ q < 2 ^ (fuel + 1)`. -/
def exp2floorPos : ℕ → ℚ → ℤ
  | 0, _ => 0
  | f + 1, q =>
    if q < 1 then exp2floorPos f (2 * q) - 1
    else if q < 2 then 0
    else exp2floorPos f (q / 2) + 1

/-- Round a positive rational in the binary64 normal range to the
nearest binary64 value (ties to even); `0` elsewhere (no use below
leaves the positive normal range). -/
def fl (q : ℚ) : ℚ :=
  if q ≤ 0 then 0
  else
    let e := exp2floorPos 1100 q
    (roundHalfEven (q * 2 ^ (52 - e)) : ℚ) * 2 ^ (e - 52)

/-! ## verifier.py -/

/-- verifier.py `ERROR_CODES` dictionary (`.get` interface). -/
def ERROR_CODES : String → Option String
  | "SUCCESS" => some "All validation checks passed. Image verified."
  | "INVALID_IMAGE" => some "Image file not found or could not be loaded."
  | "TOO_DARK" => some "Image is too dark/underexposed. Please upload a well-lit photo."
  | "TOO_BRIGHT" => some "Image is too bright/overexposed. Please reduce lighting."
  | "TOO_BLURRY" => some "Image is blurry or out of focus. Please upload a sharp photo."
  | "NO_FACE" => some "No face detected. Please upload a photo with your face visible."
  | "MULTIPLE_FACES" => some "Multiple faces detected. Please upload a photo with only one person."
  | "MODEL_NOT_FOUND" => some "Face detection model file is missing."
  | _ => none

/-- The `details` dictionary of a verification result: at most one
entry per stage, absent entries are `none` (an omitted key of the
Python dict). -/
structure Details where
  lighting : Option LightingResult
  clarity : Option ClarityResult
  face : Option FaceResult
deriving Repr, DecidableEq

/-- The empty `details` dictionary `{}`. -/
def Details.empty : Details := ⟨none, none, none⟩

/-- verifier.py result dictionary (timing fields not modelled, see the
header comment). -/
structure VerificationResult where
  valid : Bool
  reason : String
  message : String
  details : Details
deriving Repr, DecidableEq

/-- verifier.py `_build_result(valid, reason, details=None, ...)`:
`message` is `ERROR_CODES.get(reason, "Unknown error")`, `details`
defaults to `{}`. -/
def _build_result (valid : Bool) (reason : String) (details : Option Details) :
    VerificationResult :=
  ⟨valid, reason, (ERROR_CODES reason).getD "Unknown error", details.getD Details.empty⟩

/-- verifier.py `_preprocess_image(image)`: if the longer side exceeds
`MAX_IMAGE_DIMENSION`, resize to
`(int(w * scale), int(h * scale))` with
`scale = MAX_IMAGE_DIMENSION / max_dim` computed in binary64;
otherwise pass the image through unchanged.  The pre-computed
grayscale buffer it also returns is consumed through `cv.meanGray` /
`cv.lapVar` (header comment). -/
def _preprocess_image {Img : Type} (cv : CV Img) (image : Img) : Img :=
  let hw := cv.shape image
  let max_dim := max hw.1 hw.2
  if max_dim > MAX_IMAGE_DIMENSION then
    let scale := fl ((MAX_IMAGE_DIMENSION : ℚ) / (max_dim : ℚ))
    let new_w := pyInt (fl (fl (hw.2 : ℚ) * scale))
    let new_h := pyInt (fl (fl (hw.1 : ℚ) * scale))
    cv.resize image (new_w, new_h)
  else image

/-- verifier.py `verify(image_path)`: decode via `cv2.imread`
(abstracted as `imread`, returning `none` exactly when the path does
not decode), then preprocess, then the short-circuiting
lighting → clarity → face sequence. -/
def verify {Img : Type} (cv : CV Img) (model_ready : Bool)
    (imread : String → Option Img) (image_path : String) : VerificationResult :=
  match imread image_path with
  | none => _build_result false "INVALID_IMAGE" none
  | some loaded =>
    let image := _preprocess_image cv loaded
    let lighting_result := check_lighting cv (some image)
    if lighting_result.status ≠ GOOD_LIGHTING then
      _build_result false lighting_result.status
        (some ⟨some lighting_result, none, none⟩)
    else
      let clarity_result := check_clarity cv (some image)
      if clarity_result.status ≠ CLEAR then
        _build_result false clarity_result.status
          (some ⟨some lighting_result, some clarity_result, none⟩)
      else
        let face_result := detect_face cv model_ready (some image)
        if face_result.status ≠ SUCCESS then
          _build_result false face_result.status
            (some ⟨some lighting_result, some clarity_result, some face_result⟩)
        else
          _build_result true "SUCCESS"
            (some ⟨some lighting_result, some clarity_result, some face_result⟩)

/-- verifier.py `verify_from_bytes(image_bytes)`: identical body to
`verify` except that the load step is the in-memory
`cv2.imdecode(np.frombuffer(image_bytes, np.uint8), cv2.IMREAD_COLOR)`
(abstracted as `imdecode` over an abstract byte-buffer type,
returning `none` exactly when the bytes do not decode). -/
def verify_from_bytes {Img Bytes : Type} (cv : CV Img) (model_ready : Bool)
    (imdecode : Bytes → Option Img) (image_bytes : Bytes) : VerificationResult :=
  match imdecode image_bytes with
  | none => _build_result false "INVALID_IMAGE" none
  | some decoded =>
    let image := _preprocess_image cv decoded
    let lighting_result := check_lighting cv (some image)
    if lighting_result.status ≠ GOOD_LIGHTING then
      _build_result false lighting_result.status
        (some ⟨some lighting_result, none, none⟩)
    else
      let clarity_result := check_clarity cv (some image)
      if clarity_result.status ≠ CLEAR then
        _build_result false clarity_result.status
          (some ⟨some lighting_result, some clarity_result, none⟩)
      else
        let face_result := detect_face cv model_ready (some image)
        if face_result.status ≠ SUCCESS then
          _build_result false face_result.status
            (some ⟨some lighting_result, some clarity_result, some face_result⟩)
        else
          _build_result true "SUCCESS"
            (some ⟨some lighting_result, some clarity_result, some face_result⟩)

/-- verifier.py `verify_batch(image_paths)`:
`[verify(path) for path in image_paths]`. -/
def verify_batch {Img : Type} (cv : CV Img) (model_ready : Bool)
    (imread : String → Option Img) (image_paths : List String) :
    List VerificationResult :=
  image_paths.map (fun path => verify cv model_ready imread path)

/-! ## A concrete instantiation of the black-box primitives

Used to evaluate the pipeline on concrete inputs: a test image is a
record of the values the black-box primitives would measure on it. -/

/-- A concrete image for evaluation: dimensions plus the values the
black-box primitives return on it. -/
structure TestImg where
  hdim : ℕ
  wdim : ℕ
  mean : ℚ
  lvar : ℚ
  faces : ℕ
deriving Repr, DecidableEq

/-- Concrete primitives over `TestImg`: `resize` yields an image of
exactly the requested target size (the `cv2.resize` contract),
keeping the measured statistics. -/
def testCV : CV TestImg :=
  ⟨fun i => (i.hdim, i.wdim),
   fun i wh => ⟨wh.2, wh.1, i.mean, i.lvar, i.faces⟩,
   fun i => i.mean,
   fun i => i.lvar,
   fun i => i.faces⟩

/-! ## Claim theorems -/

/-- **C4**: for every non-null grayscale buffer, `check_lighting`
classifies a mean intensity strictly below `LIGHTING_MIN` as
`TOO_DARK`, strictly above `LIGHTING_MAX` as `TOO_BRIGHT`, and
otherwise — including a mean exactly equal to `LIGHTING_MIN` or to
`LIGHTING_MAX` — as `GOOD_LIGHTING`: the acceptable range is
inclusive at both bounds. -/
theorem lighting_threshold_classification {Img : Type} (cv : CV Img) (img : Img) :
    (cv.meanGray img < LIGHTING_MIN →
      (check_lighting cv (some img)).status = TOO_DARK) ∧
    (cv.meanGray img > LIGHTING_MAX →
      (check_lighting cv (some img)).status = TOO_BRIGHT) ∧
    (LIGHTING_MIN ≤ cv.meanGray img → cv.meanGray img ≤ LIGHTING_MAX →
      (check_lighting cv (some img)).status = GOOD_LIGHTING) := by
  refine ⟨fun h => ?_, fun h => ?_, fun h1 h2 => ?_⟩
  · simp [check_lighting, lighting_result, h]
  · have hmm : (LIGHTING_MIN : ℚ) ≤ LIGHTING_MAX := by norm_num [LIGHTING_MIN, LIGHTING_MAX]
    have hge : ¬ cv.meanGray img < LIGHTING_MIN :=
      not_lt.mpr (le_of_lt (lt_of_le_of_lt hmm h))
    simp [check_lighting, lighting_result, hge, h]
  · simp [check_lighting, lighting_result, not_lt.mpr h1, not_lt.mpr h2]

/-- Witness for C4: concrete images at mean 39 (dark), 201 (bright),
40, 200 (both boundary values, accepted) and 120 (interior). -/
theorem lighting_threshold_classification_witness :
    (check_lighting testCV (some ⟨10, 10, 39, 30, 1⟩)).status = TOO_DARK ∧
    (check_lighting testCV (some ⟨10, 10, 201, 30, 1⟩)).status = TOO_BRIGHT ∧
    (check_lighting testCV (some ⟨10, 10, 40, 30, 1⟩)).status = GOOD_LIGHTING ∧
    (check_lighting testCV (some ⟨10, 10, 200, 30, 1⟩)).status = GOOD_LIGHTING ∧
    (check_lighting testCV (some ⟨10, 10, 120, 30, 1⟩)).status = GOOD_LIGHTING :=
  ⟨(lighting_threshold_classification testCV ⟨10, 10, 39, 30, 1⟩).1
      (by norm_num [testCV, LIGHTING_MIN]),
   (lighting_threshold_classification testCV ⟨10, 10, 201, 30, 1⟩).2.1
      (by norm_num [testCV, LIGHTING_MAX]),
   (lighting_threshold_classification testCV ⟨10, 10, 40, 30, 1⟩).2.2
      (by norm_num [testCV, LIGHTING_MIN]) (by norm_num [testCV, LIGHTING_MAX]),
   (lighting_threshold_classification testCV ⟨10, 10, 200, 30, 1⟩).2.2
      (by norm_num [testCV, LIGHTING_MIN]) (by norm_num [testCV, LIGHTING_MAX]),
   (lighting_threshold_classification testCV ⟨10, 10, 120, 30, 1⟩).2.2
      (by norm_num [testCV, LIGHTING_MIN]) (by norm_num [testCV, LIGHTING_MAX])⟩

/-- **C5**: with the model ready, `detect_face` maps a detection count
of `0` to `NO_FACE`, exactly `1` to `SUCCESS`, and every count of `2`
or more to `MULTIPLE_FACES` with `face_count` equal to the actual
number of detections. -/
theorem face_count_mapping {Img : Type} (cv : CV Img) (img : Img) :
    (cv.detections img = 0 →
      detect_face cv true (some img) = face_result NO_FACE 0) ∧
    (cv.detections img = 1 →
      detect_face cv true (some img) = face_result SUCCESS 1) ∧
    (2 ≤ cv.detections img →
      detect_face cv true (some img) =
        face_result MULTIPLE_FACES (cv.detections img)) := by
  refine ⟨fun h => ?_, fun h => ?_, fun h => ?_⟩
  · simp [detect_face, h]
  · simp [detect_face, h]
  · have h0 : cv.detections img ≠ 0 := by omega
    have h1 : cv.detections img ≠ 1 := by omega
    simp [detect_face, h0, h1]

/-- Witness for C5: concrete images carrying 0, 1, 2 and 5 detections
(5 detections give `MULTIPLE_FACES` with `face_count = 5`). -/
theorem face_count_mapping_witness :
    detect_face testCV true (some ⟨10, 10, 120, 30, 0⟩) = face_result NO_FACE 0 ∧
    detect_face testCV true (some ⟨10, 10, 120, 30, 1⟩) = face_result SUCCESS 1 ∧
    detect_face testCV true (some ⟨10, 10, 120, 30, 2⟩) = face_result MULTIPLE_FACES 2 ∧
    detect_face testCV true (some ⟨10, 10, 120, 30, 5⟩) = face_result MULTIPLE_FACES 5 :=
  ⟨(face_count_mapping testCV ⟨10, 10, 120, 30, 0⟩).1 rfl,
   (face_count_mapping testCV ⟨10, 10, 120, 30, 1⟩).2.1 rfl,
   (face_count_mapping testCV ⟨10, 10, 120, 30, 2⟩).2.2 (by norm_num [testCV]),
   (face_count_mapping testCV ⟨10, 10, 120, 30, 5⟩).2.2 (by norm_num [testCV])⟩

/-- **C7**: `check_lighting` on a null image returns `INVALID_IMAGE`
with a zero intensity placeholder, and `check_clarity` on a null
image returns `INVALID_IMAGE` with a zero variance placeholder; both
are total functions (no exception path exists in the embedding). -/
theorem null_image_defensiveness {Img : Type} (cv : CV Img) :
    check_lighting cv none =
      ⟨INVALID_IMAGE, 0, LIGHTING_MIN, LIGHTING_MAX⟩ ∧
    check_clarity cv none = ⟨INVALID_IMAGE, 0, BLUR_THRESHOLD⟩ := by
  constructor
  · show lighting_result INVALID_IMAGE 0 = _
    simp [lighting_result, pyRound2, roundHalfEven]
  · show clarity_result INVALID_IMAGE 0 = _
    simp [clarity_result, pyRound2, roundHalfEven]

/-- **C10**: `detect_face` checks backend readiness before image
validity: with the model not ready it returns `MODEL_NOT_FOUND` with
`face_count = 0` for every input, a null image included; with the
model ready, a null image returns `INVALID_IMAGE` with
`face_count = 0`. -/
theorem model_ready_checked_first {Img : Type} (cv : CV Img) :
    (∀ image : Option Img,
      detect_face cv false image = face_result MODEL_NOT_FOUND 0) ∧
    detect_face cv true none = face_result INVALID_IMAGE 0 := by
  exact ⟨fun image => rfl, rfl⟩

/-- On a non-null image, `check_lighting` returns one of the three
classification statuses. -/
theorem check_lighting_status_cases {Img : Type} (cv : CV Img) (img : Img) :
    (check_lighting cv (some img)).status = TOO_DARK ∨
    (check_lighting cv (some img)).status = TOO_BRIGHT ∨
    (check_lighting cv (some img)).status = GOOD_LIGHTING := by
  simp only [check_lighting, lighting_result]
  split_ifs <;> simp

/-- **C1**: if the lighting check on the preprocessed image returns a
status other than `GOOD_LIGHTING`, `verify` finalizes immediately
with `valid = false`, `reason` equal to that lighting status, and a
`details` map containing exactly the `lighting` key — the clarity and
face entries are absent, not placeholders; consequently, on an image
failing both lighting and clarity, the reported reason is the
lighting failure code, never the clarity code `TOO_BLURRY`. -/
theorem lighting_short_circuit {Img : Type} (cv : CV Img) (mr : Bool)
    (imread : String → Option Img) (p : String) (img : Img)
    (hdec : imread p = some img)
    (hfail : (check_lighting cv (some (_preprocess_image cv img))).status ≠
      GOOD_LIGHTING) :
    (verify cv mr imread p).valid = false ∧
    (verify cv mr imread p).reason =
      (check_lighting cv (some (_preprocess_image cv img))).status ∧
    (verify cv mr imread p).details.lighting =
      some (check_lighting cv (some (_preprocess_image cv img))) ∧
    (verify cv mr imread p).details.clarity = none ∧
    (verify cv mr imread p).details.face = none ∧
    (verify cv mr imread p).reason ≠ TOO_BLURRY := by
  have hv : verify cv mr imread p =
      _build_result false (check_lighting cv (some (_preprocess_image cv img))).status
        (some ⟨some (check_lighting cv (some (_preprocess_image cv img))), none, none⟩) := by
    simp only [verify, hdec]
    rw [if_pos hfail]
  have hnb : (check_lighting cv (some (_preprocess_image cv img))).status ≠ TOO_BLURRY := by
    rcases check_lighting_status_cases cv (_preprocess_image cv img) with h | h | h <;>
      rw [h] <;> simp [TOO_DARK, TOO_BRIGHT, GOOD_LIGHTING, TOO_BLURRY]
  rw [hv]
  exact ⟨rfl, rfl, rfl, rfl, rfl, hnb⟩

/-- Witness for C1: an image that is both too dark (mean 10) and too
blurry (variance 5); the pipeline reports the lighting code. -/
theorem lighting_short_circuit_witness :
    (verify testCV true (fun _ => some ⟨100, 100, 10, 5, 1⟩) "photo.jpg").valid = false ∧
    (verify testCV true (fun _ => some ⟨100, 100, 10, 5, 1⟩) "photo.jpg").reason =
      (check_lighting testCV
        (some (_preprocess_image testCV ⟨100, 100, 10, 5, 1⟩))).status ∧
    (verify testCV true (fun _ => some ⟨100, 100, 10, 5, 1⟩) "photo.jpg").details.lighting =
      some (check_lighting testCV
        (some (_preprocess_image testCV ⟨100, 100, 10, 5, 1⟩))) ∧
    (verify testCV true (fun _ => some ⟨100, 100, 10, 5, 1⟩) "photo.jpg").details.clarity =
      none ∧
    (verify testCV true (fun _ => some ⟨100, 100, 10, 5, 1⟩) "photo.jpg").details.face =
      none ∧
    (verify testCV true (fun _ => some ⟨100, 100, 10, 5, 1⟩) "photo.jpg").reason ≠
      TOO_BLURRY :=
  lighting_short_circuit testCV true (fun _ => some ⟨100, 100, 10, 5, 1⟩) "photo.jpg"
    ⟨100, 100, 10, 5, 1⟩ rfl (by with_unfolding_all decide)

/-- **C6**: an input the decoder cannot decode (the decode primitive
returns `none`) makes `verify` and `verify_from_bytes` return
`valid = false`, `reason = INVALID_IMAGE`, and an empty `details`
map — no evaluator stage entry exists. -/
theorem decode_failure_result {Img Bytes : Type} (cv : CV Img) (mr : Bool)
    (imread : String → Option Img) (p : String)
    (imdecode : Bytes → Option Img) (b : Bytes)
    (h1 : imread p = none) (h2 : imdecode b = none) :
    (verify cv mr imread p).valid = false ∧
    (verify cv mr imread p).reason = INVALID_IMAGE ∧
    (verify cv mr imread p).details = Details.empty ∧
    (verify_from_bytes cv mr imdecode b).valid = false ∧
    (verify_from_bytes cv mr imdecode b).reason = INVALID_IMAGE ∧
    (verify_from_bytes cv mr imdecode b).details = Details.empty := by
  have hv : verify cv mr imread p = _build_result false "INVALID_IMAGE" none := by
    simp only [verify, h1]
  have hb : verify_from_bytes cv mr imdecode b =
      _build_result false "INVALID_IMAGE" none := by
    simp only [verify_from_bytes, h2]
  rw [hv, hb]
  exact ⟨rfl, rfl, rfl, rfl, rfl, rfl⟩

/-- Witness for C6: a path and a byte buffer that do not decode. -/
theorem decode_failure_result_witness :
    (verify testCV true (fun _ => (none : Option TestImg)) "missing.jpg").valid = false ∧
    (verify testCV true (fun _ => (none : Option TestImg)) "missing.jpg").reason =
      INVALID_IMAGE ∧
    (verify testCV true (fun _ => (none : Option TestImg)) "missing.jpg").details =
      Details.empty ∧
    (verify_from_bytes testCV true (fun _ : ℕ => (none : Option TestImg)) 0).valid =
      false ∧
    (verify_from_bytes testCV true (fun _ : ℕ => (none : Option TestImg)) 0).reason =
      INVALID_IMAGE ∧
    (verify_from_bytes testCV true (fun _ : ℕ => (none : Option TestImg)) 0).details =
      Details.empty :=
  decode_failure_result testCV true (fun _ => none) "missing.jpg"
    (fun _ : ℕ => none) 0 rfl rfl

/-- **C8**: a file path and a byte buffer that decode to the same
image produce identical results through `verify` and
`verify_from_bytes` — identical `valid`, `reason`, `message` and
`details`; the two entry points differ only in the load step. -/
theorem path_bytes_equivalence {Img Bytes : Type} (cv : CV Img) (mr : Bool)
    (imread : String → Option Img) (imdecode : Bytes → Option Img)
    (p : String) (b : Bytes) (img : Img)
    (h1 : imread p = some img) (h2 : imdecode b = some img) :
    verify cv mr imread p = verify_from_bytes cv mr imdecode b := by
  simp only [verify, verify_from_bytes, h1, h2]

/-- Witness for C8: a concrete image reached through both entry
points. -/
theorem path_bytes_equivalence_witness :
    verify testCV true (fun _ => some ⟨100, 100, 120, 30, 1⟩) "photo.jpg" =
      verify_from_bytes testCV true (fun _ : ℕ => some ⟨100, 100, 120, 30, 1⟩) 7 :=
  path_bytes_equivalence testCV true (fun _ => some ⟨100, 100, 120, 30, 1⟩)
    (fun _ : ℕ => some ⟨100, 100, 120, 30, 1⟩) "photo.jpg" 7
    ⟨100, 100, 120, 30, 1⟩ rfl rfl

/-- **C9**: `verify_batch` returns one result per input, in input
order; the result at each position is exactly `verify` of that path
alone — splitting the input list anywhere splits the output list the
same way, so no input's outcome affects any other's. -/
theorem batch_independence {Img : Type} (cv : CV Img) (mr : Bool)
    (imread : String → Option Img) :
    (∀ paths : List String,
      (verify_batch cv mr imread paths).length = paths.length) ∧
    (∀ (pre : List String) (x : String) (post : List String),
      verify_batch cv mr imread (pre ++ x :: post) =
        verify_batch cv mr imread pre ++
          verify cv mr imread x :: verify_batch cv mr imread post) := by
  constructor
  · intro paths
    simp [verify_batch]
  · intro pre x post
    simp [verify_batch]

/-! ## Exception path of the pipeline

`verifier.py` contains no `try`/`except`: a Python exception raised
below `verify` by a numeric or library primitive propagates to the
caller.  To settle claim C2 the pipeline is translated a second time
with the fault-prone black-box statistics returning
`Except String` (a raised Python exception is `.error`); the body is
the same line-for-line translation as `verify`, and since the source
has no handler, no `.error` is intercepted anywhere.  (The only
handler in the repository sits one layer above the pipeline, in the
`/verify` endpoint of `app.py`, which maps any exception escaping
`verify_from_bytes` to an `INTERNAL_ERROR` HTTP response.) -/

/-- The black-box primitives with fault-prone numeric statistics
(`np.mean`, the Laplacian variance, the model inference). -/
structure CVE (Img : Type) where
  shape : Img → ℕ × ℕ
  resize : Img → ℕ × ℕ → Img
  meanGray : Img → Except String ℚ
  lapVar : Img → Except String ℚ
  detections : Img → Except String ℕ

/-- `check_lighting` with a fault-prone mean: the function catches
nothing, so a raised fault propagates. -/
def check_lightingE {Img : Type} (cv : CVE Img) (image : Option Img) :
    Except String LightingResult :=
  match image with
  | none => pure (lighting_result INVALID_IMAGE 0)
  | some img => do
    let mean_intensity ← cv.meanGray img
    if mean_intensity < LIGHTING_MIN then pure (lighting_result TOO_DARK mean_intensity)
    else if mean_intensity > LIGHTING_MAX then
      pure (lighting_result TOO_BRIGHT mean_intensity)
    else pure (lighting_result GOOD_LIGHTING mean_intensity)

/-- `check_clarity` with a fault-prone variance. -/
def check_clarityE {Img : Type} (cv : CVE Img) (image : Option Img) :
    Except String ClarityResult :=
  match image with
  | none => pure (clarity_result INVALID_IMAGE 0)
  | some img => do
    let variance ← cv.lapVar img
    if variance < BLUR_THRESHOLD then pure (clarity_result TOO_BLURRY variance)
    else pure (clarity_result CLEAR variance)

/-- `detect_face` with fault-prone model inference. -/
def detect_faceE {Img : Type} (cv : CVE Img) (model_ready : Bool) (image : Option Img) :
    Except String FaceResult :=
  if !model_ready then pure (face_result MODEL_NOT_FOUND 0)
  else match image with
  | none => pure (face_result INVALID_IMAGE 0)
  | some img => do
    let face_count ← cv.detections img
    if face_count = 0 then pure (face_result NO_FACE 0)
    else if face_count = 1 then pure (face_result SUCCESS 1)
    else pure (face_result MULTIPLE_FACES face_count)

/-- `_preprocess_image` over the fault-prone primitive record (its own
shape and resize calls are not fault sites in this model). -/
def _preprocess_imageE {Img : Type} (cv : CVE Img) (image : Img) : Img :=
  let hw := cv.shape image
  let max_dim := max hw.1 hw.2
  if max_dim > MAX_IMAGE_DIMENSION then
    let scale := fl ((MAX_IMAGE_DIMENSION : ℚ) / (max_dim : ℚ))
    let new_w := pyInt (fl (fl (hw.2 : ℚ) * scale))
    let new_h := pyInt (fl (fl (hw.1 : ℚ) * scale))
    cv.resize image (new_w, new_h)
  else image

/-- `verify` with the exception path explicit: no handler exists, so
the chain of binds propagates any raised fault to the caller. -/
def verifyE {Img : Type} (cv : CVE Img) (model_ready : Bool)
    (imread : String → Option Img) (image_path : String) :
    Except String VerificationResult :=
  match imread image_path with
  | none => pure (_build_result false "INVALID_IMAGE" none)
  | some loaded => do
    let image := _preprocess_imageE cv loaded
    let lighting_result ← check_lightingE cv (some image)
    if lighting_result.status ≠ GOOD_LIGHTING then
      pure (_build_result false lighting_result.status
        (some ⟨some lighting_result, none, none⟩))
    else do
      let clarity_result ← check_clarityE cv (some image)
      if clarity_result.status ≠ CLEAR then
        pure (_build_result false clarity_result.status
          (some ⟨some lighting_result, some clarity_result, none⟩))
      else do
        let face_result ← detect_faceE cv model_ready (some image)
        if face_result.status ≠ SUCCESS then
          pure (_build_result false face_result.status
            (some ⟨some lighting_result, some clarity_result, some face_result⟩))
        else
          pure (_build_result true "SUCCESS"
            (some ⟨some lighting_result, some clarity_result, some face_result⟩))

/-- A concrete fault-prone primitive record whose mean computation
raises (a lower-level numeric fault), other primitives normal. -/
def faultCVE : CVE TestImg :=
  ⟨fun i => (i.hdim, i.wdim),
   fun i wh => ⟨wh.2, wh.1, i.mean, i.lvar, i.faces⟩,
   fun _ => Except.error "FloatingPointError raised by np.mean",
   fun i => Except.ok i.lvar,
   fun i => Except.ok i.faces⟩

/-- **C2, counterexample**: on a decodable image whose mean
computation raises a lower-level numeric fault, `verify` does not
return a well-formed `VerificationResult` at all — the fault escapes
the pipeline to the caller, so the claim that every internal error is
caught at the pipeline boundary and mapped to an internal-error
outcome is false. -/
theorem internal_error_escapes_concrete :
    verifyE faultCVE true (fun _ => some ⟨100, 100, 120, 30, 1⟩) "photo.jpg" =
      Except.error "FloatingPointError raised by np.mean" := by
  rfl

/-- **C2, amended**: `verify` has no handler, so an unexpected
internal error below the pipeline is not caught at the pipeline
boundary: whenever a stage primitive raises on the preprocessed
image, `verify` propagates exactly that fault to its caller (the
mapping to a generic `INTERNAL_ERROR` outcome happens one layer
above the pipeline, in the HTTP endpoint). -/
theorem internal_error_propagates {Img : Type} (cv : CVE Img) (mr : Bool)
    (imread : String → Option Img) (p : String) (img : Img) (e : String)
    (hdec : imread p = some img)
    (hfault : cv.meanGray (_preprocess_imageE cv img) = Except.error e) :
    verifyE cv mr imread p = Except.error e := by
  simp only [verifyE, hdec, check_lightingE, hfault]
  rfl

/-- Witness for the amended C2: the concrete faulting instantiation. -/
theorem internal_error_propagates_witness :
    verifyE faultCVE true (fun _ => some ⟨100, 100, 120, 30, 1⟩) "image.png" =
      Except.error "FloatingPointError raised by np.mean" :=
  internal_error_propagates faultCVE true (fun _ => some ⟨100, 100, 120, 30, 1⟩)
    "image.png" ⟨100, 100, 120, 30, 1⟩ "FloatingPointError raised by np.mean" rfl rfl

/-! ## Correctness bounds for the binary64 rounding model -/

/-- `exp2floorPos` does compute the binade exponent on its fuel
range. -/
theorem exp2floorPos_correct :
    ∀ (f : ℕ) (q : ℚ), (2 : ℚ) ^ (-(f : ℤ)) ≤ q → q < 2 ^ ((f : ℤ) + 1) →
      (2 : ℚ) ^ exp2floorPos f q ≤ q ∧ q < 2 ^ (exp2floorPos f q + 1) := by
  intro f
  induction f with
  | zero =>
    intro q h1 h2
    rw [exp2floorPos]
    norm_num at h1 h2 ⊢
    exact ⟨h1, h2⟩
  | succ f ih =>
    intro q h1 h2
    have h2ne : (2 : ℚ) ≠ 0 := two_ne_zero
    rw [exp2floorPos]
    split_ifs with hq1 hq2
    · -- q < 1: descend on 2 * q
      have ha : (2 : ℚ) ^ (-(f : ℤ)) ≤ 2 * q := by
        have hsplit : (2 : ℚ) ^ (-(f : ℤ)) = 2 ^ (-((f : ℤ) + 1)) * 2 := by
          rw [← zpow_add_one₀ h2ne]
          congr 1
          ring
        have h1' : (2 : ℚ) ^ (-((f : ℤ) + 1)) ≤ q := by
          have : (-(((f : ℕ) + 1 : ℕ) : ℤ)) = -((f : ℤ) + 1) := by push_cast; ring
          rw [this] at h1
          exact h1
        rw [hsplit]
        linarith
      have hb : 2 * q < 2 ^ ((f : ℤ) + 1) := by
        have h2f : (2 : ℚ) ≤ 2 ^ ((f : ℤ) + 1) := by
          have : (2 : ℚ) ^ (1 : ℤ) ≤ 2 ^ ((f : ℤ) + 1) :=
            zpow_le_zpow_right₀ one_le_two (by omega)
          simpa using this
        linarith
      obtain ⟨c1, c2⟩ := ih (2 * q) ha hb
      have hmul : (2 : ℚ) ^ (exp2floorPos f (2 * q) - 1) * 2 =
          2 ^ exp2floorPos f (2 * q) := by
        rw [← zpow_add_one₀ h2ne]
        congr 1
        ring
      constructor
      · linarith
      · have hexp : exp2floorPos f (2 * q) - 1 + 1 = exp2floorPos f (2 * q) := by ring
        rw [hexp]
        rw [zpow_add_one₀ h2ne] at c2
        linarith
    · -- 1 ≤ q < 2
      constructor
      · simpa using not_lt.mp hq1
      · simpa using hq2
    · -- 2 ≤ q: descend on q / 2
      have hq2' : (2 : ℚ) ≤ q := not_lt.mp hq2
      have ha : (2 : ℚ) ^ (-(f : ℤ)) ≤ q / 2 := by
        have hle1 : (2 : ℚ) ^ (-(f : ℤ)) ≤ 1 := by
          have : (2 : ℚ) ^ (-(f : ℤ)) ≤ 2 ^ (0 : ℤ) :=
            zpow_le_zpow_right₀ one_le_two (by omega)
          simpa using this
        linarith
      have hb : q / 2 < 2 ^ ((f : ℤ) + 1) := by
        have hcast : ((((f : ℕ) + 1 : ℕ) : ℤ) + 1) = ((f : ℤ) + 1) + 1 := by
          push_cast
          ring
        rw [hcast, zpow_add_one₀ h2ne] at h2
        linarith
      obtain ⟨c1, c2⟩ := ih (q / 2) ha hb
      constructor
      · rw [zpow_add_one₀ h2ne]
        linarith
      · rw [zpow_add_one₀ h2ne]
        linarith

/-- Round-to-nearest is within half of the true value. -/
theorem roundHalfEven_close (q : ℚ) : |(roundHalfEven q : ℚ) - q| ≤ 1 / 2 := by
  have hfl : (⌊q⌋ : ℚ) ≤ q := Int.floor_le q
  have hfu : q < ⌊q⌋ + 1 := Int.lt_floor_add_one q
  unfold roundHalfEven
  split_ifs with h1 h2 h3 <;> rw [abs_le] <;> push_cast <;> constructor <;> linarith

/-- Relative error of the binary64 rounding `fl` on its validated
range: at most one half unit in the last place of a 53-bit
significand, hence at most `q * 2 ^ (-53)`. -/
theorem fl_error (q : ℚ) (h1 : (2 : ℚ) ^ (-(1100 : ℤ)) ≤ q)
    (h2 : q < 2 ^ (1101 : ℤ)) :
    |fl q - q| ≤ q * 2 ^ (-(53 : ℤ)) := by
  have h2ne : (2 : ℚ) ≠ 0 := two_ne_zero
  have hqpos : 0 < q := lt_of_lt_of_le (by positivity) h1
  have hcorr := exp2floorPos_correct 1100 q (by exact_mod_cast h1)
    (by exact_mod_cast h2)
  unfold fl
  rw [if_neg (not_le.mpr hqpos)]
  set e := exp2floorPos 1100 q with he
  obtain ⟨hl, hr⟩ := hcorr
  have hx : q * (2 : ℚ) ^ (52 - e) * 2 ^ (e - 52) = q := by
    rw [mul_assoc, ← zpow_add₀ h2ne]
    simp
  have hclose := roundHalfEven_close (q * 2 ^ (52 - e))
  have hpow : (0 : ℚ) < 2 ^ (e - 52) := by positivity
  have hstep : (roundHalfEven (q * 2 ^ (52 - e)) : ℚ) * 2 ^ (e - 52) - q =
      ((roundHalfEven (q * 2 ^ (52 - e)) : ℚ) - q * 2 ^ (52 - e)) * 2 ^ (e - 52) := by
    rw [sub_mul, hx]
  calc |(roundHalfEven (q * 2 ^ (52 - e)) : ℚ) * 2 ^ (e - 52) - q|
      = |(roundHalfEven (q * 2 ^ (52 - e)) : ℚ) - q * 2 ^ (52 - e)| * |(2 : ℚ) ^ (e - 52)| := by
        rw [hstep, abs_mul]
    _ = |(roundHalfEven (q * 2 ^ (52 - e)) : ℚ) - q * 2 ^ (52 - e)| * 2 ^ (e - 52) := by
        rw [abs_of_pos hpow]
    _ ≤ 1 / 2 * 2 ^ (e - 52) :=
        mul_le_mul_of_nonneg_right hclose (le_of_lt hpow)
    _ = 2 ^ (e - 53) := by
        rw [show e - 53 = -1 + (e - 52) by ring, zpow_add₀ h2ne]
        norm_num
    _ ≤ q * 2 ^ (-(53 : ℤ)) := by
        rw [show e - 53 = e + -53 by ring, zpow_add₀ h2ne]
        exact mul_le_mul_of_nonneg_right hl (by positivity)


attribute [irreducible] fl

/-- The binary64 unit roundoff `2 ^ (-53)` as an explicit rational. -/
theorem u53_eq : (2 : ℚ) ^ (-(53 : ℤ)) = 1 / 9007199254740992 := by
  rw [zpow_neg]
  norm_num

/-- `fl` relative-error bound restated with explicit rational range
endpoints (all three rounding sites in the resize computation fall in
`[2 ^ (-34), 2 ^ 32]`). -/
theorem fl_error_easy (x : ℚ) (h1 : 1 / 17179869184 ≤ x) (h2 : x ≤ 4294967296) :
    |fl x - x| ≤ x * (1 / 9007199254740992) := by
  have r1 : (2 : ℚ) ^ (-(1100 : ℤ)) ≤ x :=
    calc (2 : ℚ) ^ (-(1100 : ℤ))
        ≤ 2 ^ (-(34 : ℤ)) := zpow_le_zpow_right₀ one_le_two (by norm_num)
      _ = 1 / 17179869184 := by rw [zpow_neg]; norm_num
      _ ≤ x := h1
  have r2 : x < 2 ^ (1101 : ℤ) :=
    calc x ≤ 4294967296 := h2
      _ < 8589934592 := by norm_num
      _ = 2 ^ (33 : ℤ) := by norm_num
      _ ≤ 2 ^ (1101 : ℤ) := zpow_le_zpow_right₀ one_le_two (by norm_num)
  have h := fl_error x r1 r2
  rw [u53_eq] at h
  exact h

set_option maxHeartbeats 1600000 in
/-- Core bounds for the resized dimension computation
`fl (fl n * fl (640 / d))`: the value lies within a factor
`(1 ∓ 2 ^ (-53))³` of the exact scaling `n * 640 / d`. -/
theorem resize_core (d n : ℕ) (hd1 : 641 ≤ d) (hd2 : d ≤ 2 ^ 32)
    (hn1 : 1 ≤ n) (hnd : n ≤ d) :
    (n : ℚ) * (640 / (d : ℚ)) * (1 - 1 / 9007199254740992) ^ 3 ≤
      fl (fl (n : ℚ) * fl (640 / (d : ℚ))) ∧
    fl (fl (n : ℚ) * fl (640 / (d : ℚ))) ≤
      (n : ℚ) * (640 / (d : ℚ)) * (1 + 1 / 9007199254740992) ^ 3 := by
  have hdq : (0 : ℚ) < (d : ℚ) := by
    have : (0 : ℕ) < d := by omega
    exact_mod_cast this
  have hdge : (641 : ℚ) ≤ (d : ℚ) := by exact_mod_cast hd1
  have hdle : (d : ℚ) ≤ 4294967296 := by
    have : d ≤ 4294967296 := by norm_num at hd2 ⊢; omega
    exact_mod_cast this
  have hnq1 : (1 : ℚ) ≤ (n : ℚ) := by exact_mod_cast hn1
  have hnpos : (0 : ℚ) < (n : ℚ) := by linarith
  have hndq : (n : ℚ) ≤ (d : ℚ) := by exact_mod_cast hnd
  set q : ℚ := 640 / (d : ℚ) with hq
  clear_value q
  have hqpos : 0 < q := by
    rw [hq]
    exact div_pos (by norm_num) hdq
  have hq640 : (n : ℚ) * q ≤ 640 := by
    rw [hq, mul_div_assoc']
    rw [div_le_iff hdq]
    nlinarith
  have hq_lb : (1 : ℚ) / 4294967296 ≤ q := by
    rw [hq, div_le_div_iff (by norm_num) hdq]
    nlinarith
  have hq_ub : q ≤ 640 := by
    rw [hq, div_le_iff hdq]
    nlinarith
  have hnq_lb : (1 : ℚ) / 4294967296 ≤ (n : ℚ) * q :=
    le_trans hq_lb (le_mul_of_one_le_left hqpos.le hnq1)
  -- rounding error of the scale
  have hs := fl_error_easy q (by linarith) (by linarith)
  rw [abs_le] at hs
  have hs1 : q * (1 - 1 / 9007199254740992) ≤ fl q := by
    have hexp : q * (1 - 1 / 9007199254740992) = q - q * (1 / 9007199254740992) := by
      ring
    rw [hexp]
    linarith [hs.1]
  have hs2 : fl q ≤ q * (1 + 1 / 9007199254740992) := by
    have hexp : q * (1 + 1 / 9007199254740992) = q + q * (1 / 9007199254740992) := by
      ring
    rw [hexp]
    linarith [hs.2]
  have hspos : 0 < fl q :=
    lt_of_lt_of_le (by nlinarith) hs1
  -- rounding error of the integer-to-float conversion
  have hnle : (n : ℚ) ≤ 4294967296 := le_trans hndq hdle
  have hm := fl_error_easy (n : ℚ) (by linarith) (by linarith)
  rw [abs_le] at hm
  have hm1 : (n : ℚ) * (1 - 1 / 9007199254740992) ≤ fl (n : ℚ) := by
    have hexp : (n : ℚ) * (1 - 1 / 9007199254740992) =
        (n : ℚ) - (n : ℚ) * (1 / 9007199254740992) := by ring
    rw [hexp]
    linarith [hm.1]
  have hm2 : fl (n : ℚ) ≤ (n : ℚ) * (1 + 1 / 9007199254740992) := by
    have hexp : (n : ℚ) * (1 + 1 / 9007199254740992) =
        (n : ℚ) + (n : ℚ) * (1 / 9007199254740992) := by ring
    rw [hexp]
    linarith [hm.2]
  have hmpos : 0 < fl (n : ℚ) := lt_of_lt_of_le (by nlinarith) hm1
  clear hs hm
  -- bounds on the product before the final rounding
  have hprod1 : (n : ℚ) * q * (1 - 1 / 9007199254740992) ^ 2 ≤ fl (n : ℚ) * fl q := by
    have step : ((n : ℚ) * (1 - 1 / 9007199254740992)) *
        (q * (1 - 1 / 9007199254740992)) ≤ fl (n : ℚ) * fl q :=
      mul_le_mul hm1 hs1 (by nlinarith) hmpos.le
    calc (n : ℚ) * q * (1 - 1 / 9007199254740992) ^ 2
        = ((n : ℚ) * (1 - 1 / 9007199254740992)) *
            (q * (1 - 1 / 9007199254740992)) := by ring
      _ ≤ fl (n : ℚ) * fl q := step
  have hprod2 : fl (n : ℚ) * fl q ≤ (n : ℚ) * q * (1 + 1 / 9007199254740992) ^ 2 := by
    have step : fl (n : ℚ) * fl q ≤
        ((n : ℚ) * (1 + 1 / 9007199254740992)) * (q * (1 + 1 / 9007199254740992)) :=
      mul_le_mul hm2 hs2 hspos.le (by nlinarith)
    calc fl (n : ℚ) * fl q
        ≤ ((n : ℚ) * (1 + 1 / 9007199254740992)) *
            (q * (1 + 1 / 9007199254740992)) := step
      _ = (n : ℚ) * q * (1 + 1 / 9007199254740992) ^ 2 := by ring
  -- the product is in the validated range of fl
  have hplb : (1 : ℚ) / 17179869184 ≤ fl (n : ℚ) * fl q := by
    have grow : (1 : ℚ) / 4294967296 * ((1 - 1 / 9007199254740992) ^ 2) ≤
        (n : ℚ) * q * ((1 - 1 / 9007199254740992) ^ 2) :=
      mul_le_mul_of_nonneg_right hnq_lb (by positivity)
    have base : (1 : ℚ) / 17179869184 ≤
        (1 : ℚ) / 4294967296 * ((1 - 1 / 9007199254740992) ^ 2) := by norm_num
    linarith [hprod1, grow, base]
  have hpub : fl (n : ℚ) * fl q ≤ 4294967296 := by
    have grow : (n : ℚ) * q * ((1 + 1 / 9007199254740992) ^ 2) ≤
        640 * ((1 + 1 / 9007199254740992) ^ 2) :=
      mul_le_mul_of_nonneg_right hq640 (by positivity)
    have base : (640 : ℚ) * ((1 + 1 / 9007199254740992) ^ 2) ≤ 4294967296 := by
      norm_num
    linarith [hprod2, grow, base]
  have ht := fl_error_easy (fl (n : ℚ) * fl q) hplb hpub
  rw [abs_le] at ht
  have ht1 : fl (n : ℚ) * fl q * (1 - 1 / 9007199254740992) ≤
      fl (fl (n : ℚ) * fl q) := by
    have hexp : fl (n : ℚ) * fl q * (1 - 1 / 9007199254740992) =
        fl (n : ℚ) * fl q - fl (n : ℚ) * fl q * (1 / 9007199254740992) := by ring
    rw [hexp]
    linarith [ht.1]
  have ht2 : fl (fl (n : ℚ) * fl q) ≤
      fl (n : ℚ) * fl q * (1 + 1 / 9007199254740992) := by
    have hexp : fl (n : ℚ) * fl q * (1 + 1 / 9007199254740992) =
        fl (n : ℚ) * fl q + fl (n : ℚ) * fl q * (1 / 9007199254740992) := by ring
    rw [hexp]
    linarith [ht.2]
  constructor
  · have step : ((n : ℚ) * q * (1 - 1 / 9007199254740992) ^ 2) *
        (1 - 1 / 9007199254740992) ≤
        (fl (n : ℚ) * fl q) * (1 - 1 / 9007199254740992) :=
      mul_le_mul_of_nonneg_right hprod1 (by norm_num)
    calc (n : ℚ) * q * (1 - 1 / 9007199254740992) ^ 3
        = ((n : ℚ) * q * (1 - 1 / 9007199254740992) ^ 2) *
            (1 - 1 / 9007199254740992) := by ring
      _ ≤ (fl (n : ℚ) * fl q) * (1 - 1 / 9007199254740992) := step
      _ ≤ fl (fl (n : ℚ) * fl q) := ht1
  · have step : (fl (n : ℚ) * fl q) * (1 + 1 / 9007199254740992) ≤
        ((n : ℚ) * q * (1 + 1 / 9007199254740992) ^ 2) *
          (1 + 1 / 9007199254740992) :=
      mul_le_mul_of_nonneg_right hprod2 (by norm_num)
    calc fl (fl (n : ℚ) * fl q)
        ≤ (fl (n : ℚ) * fl q) * (1 + 1 / 9007199254740992) := ht2
      _ ≤ ((n : ℚ) * q * (1 + 1 / 9007199254740992) ^ 2) *
            (1 + 1 / 9007199254740992) := step
      _ = (n : ℚ) * q * (1 + 1 / 9007199254740992) ^ 3 := by ring

/-- `fl` of zero is zero. -/
theorem fl_zero : fl 0 = 0 := by
  unfold fl
  norm_num

/-- The dimension computed for the side equal to `max_dim` lands on
639 or 640 — floating-point rounding can lose the exact cap. -/
theorem resize_longer (d : ℕ) (hd1 : 641 ≤ d) (hd2 : d ≤ 2 ^ 32) :
    pyInt (fl (fl (d : ℚ) * fl (640 / (d : ℚ)))) = 639 ∨
    pyInt (fl (fl (d : ℚ) * fl (640 / (d : ℚ)))) = 640 := by
  obtain ⟨hlo, hhi⟩ := resize_core d d hd1 hd2 (by omega) le_rfl
  have hdne : (d : ℚ) ≠ 0 := by
    have : (0 : ℕ) < d := by omega
    exact_mod_cast Nat.pos_iff_ne_zero.mp this
  have hsimp : (d : ℚ) * (640 / (d : ℚ)) = 640 := by field_simp
  rw [hsimp] at hlo hhi
  have h1 : (639 : ℚ) < fl (fl (d : ℚ) * fl (640 / (d : ℚ))) := by
    have hcube : (639 : ℚ) < 640 * (1 - 1 / 9007199254740992) ^ 3 := by norm_num
    linarith
  have h2 : fl (fl (d : ℚ) * fl (640 / (d : ℚ))) < 641 := by
    have hcube : (640 : ℚ) * (1 + 1 / 9007199254740992) ^ 3 < 641 := by norm_num
    linarith
  have hfl1 : (639 : ℤ) ≤ ⌊fl (fl (d : ℚ) * fl (640 / (d : ℚ)))⌋ :=
    Int.le_floor.mpr (by exact_mod_cast h1.le)
  have hfl2 : ⌊fl (fl (d : ℚ) * fl (640 / (d : ℚ)))⌋ < 641 :=
    Int.floor_lt.mpr (by exact_mod_cast h2)
  unfold pyInt
  omega

/-- The dimension computed for a strictly shorter side stays at or
below 639, so it never overtakes the longer side's value. -/
theorem resize_shorter (d n : ℕ) (hd1 : 641 ≤ d) (hd2 : d ≤ 2 ^ 32) (hnd : n < d) :
    pyInt (fl (fl (n : ℚ) * fl (640 / (d : ℚ)))) ≤ 639 := by
  rcases Nat.eq_zero_or_pos n with hn0 | hn1
  · subst hn0
    rw [Nat.cast_zero, fl_zero, zero_mul, fl_zero]
    unfold pyInt
    norm_num
  · obtain ⟨hlo, hhi⟩ := resize_core d n hd1 hd2 hn1 (le_of_lt hnd)
    have hdq : (0 : ℚ) < (d : ℚ) := by
      have : (0 : ℕ) < d := by omega
      exact_mod_cast this
    have hdge : (641 : ℚ) ≤ (d : ℚ) := by exact_mod_cast hd1
    have hdle : (d : ℚ) ≤ 4294967296 := by
      have : d ≤ 4294967296 := by norm_num at hd2 ⊢; omega
      exact_mod_cast this
    have hnd' : (n : ℚ) ≤ (d : ℚ) - 1 := by
      have : ((n : ℚ)) + 1 ≤ (d : ℚ) := by exact_mod_cast hnd
      linarith
    have hkey : ((d : ℚ) - 1) * ((1 + 1 / 9007199254740992) ^ 3) < (d : ℚ) := by
      have hc : ((1 : ℚ) + 1 / 9007199254740992) ^ 3 ≤ 1 + 1 / 1000000000000 := by
        norm_num
      have hc0 : (0 : ℚ) ≤ (d : ℚ) - 1 := by linarith
      have step1 : ((d : ℚ) - 1) * ((1 + 1 / 9007199254740992) ^ 3) ≤
          ((d : ℚ) - 1) * (1 + 1 / 1000000000000) :=
        mul_le_mul_of_nonneg_left hc hc0
      have step2 : ((d : ℚ) - 1) * (1 / 1000000000000) ≤
          4294967295 * (1 / 1000000000000) :=
        mul_le_mul_of_nonneg_right (by linarith) (by norm_num)
      have step3 : (4294967295 : ℚ) * (1 / 1000000000000) < 1 := by norm_num
      nlinarith [step1, step2, step3]
    have key : (n : ℚ) * (640 / (d : ℚ)) * (1 + 1 / 9007199254740992) ^ 3 < 640 := by
      have hform : (n : ℚ) * (640 / (d : ℚ)) * (1 + 1 / 9007199254740992) ^ 3 =
          (n : ℚ) * 640 * ((1 + 1 / 9007199254740992) ^ 3) / (d : ℚ) := by ring
      rw [hform, div_lt_iff hdq]
      have hstep1 : (n : ℚ) * 640 * ((1 + 1 / 9007199254740992) ^ 3) ≤
          ((d : ℚ) - 1) * 640 * ((1 + 1 / 9007199254740992) ^ 3) := by
        apply mul_le_mul_of_nonneg_right _ (by positivity)
        linarith
      nlinarith [hstep1, hkey]
    have h2 : fl (fl (n : ℚ) * fl (640 / (d : ℚ))) < 640 := lt_of_le_of_lt hhi key
    have hfl2 : ⌊fl (fl (n : ℚ) * fl (640 / (d : ℚ)))⌋ < 640 :=
      Int.floor_lt.mpr (by exact_mod_cast h2)
    unfold pyInt
    omega

/-- The longer side of the pair of computed dimensions is 639 or
640. -/
theorem newdim_max_cases (a b : ℕ) (h640 : 640 < max a b) (h32 : max a b ≤ 2 ^ 32) :
    max (pyInt (fl (fl (a : ℚ) * fl (640 / ((max a b : ℕ) : ℚ)))))
        (pyInt (fl (fl (b : ℚ) * fl (640 / ((max a b : ℕ) : ℚ))))) = 639 ∨
    max (pyInt (fl (fl (a : ℚ) * fl (640 / ((max a b : ℕ) : ℚ)))))
        (pyInt (fl (fl (b : ℚ) * fl (640 / ((max a b : ℕ) : ℚ))))) = 640 := by
  have hd1 : 641 ≤ max a b := by omega
  rcases le_total a b with hab | hab
  · rw [max_eq_right hab] at *
    have hb := resize_longer b hd1 h32
    rcases Nat.lt_or_ge a b with hlt | hge
    · have ha := resize_shorter b a hd1 h32 hlt
      omega
    · have hab' : a = b := by omega
      subst hab'
      omega
  · rw [max_eq_left hab] at *
    have ha := resize_longer a hd1 h32
    rcases Nat.lt_or_ge b a with hlt | hge
    · have hb := resize_shorter a b hd1 h32 hlt
      omega
    · have hab' : b = a := by omega
      subst hab'
      omega

set_option maxRecDepth 40000 in
/-- **C3, counterexample**: a 1077 × 1077 input exceeds the cap, yet
the preprocessed image's longer side is 639, not
`MAX_IMAGE_DIMENSION = 640`: in binary64 the computed scale makes
`int(1077 * (640 / 1077)) = 639`. -/
theorem resize_exact_cap_counterexample :
    640 < max (testCV.shape ⟨1077, 1077, 120, 100, 1⟩).1
        (testCV.shape ⟨1077, 1077, 120, 100, 1⟩).2 ∧
    max (testCV.shape (_preprocess_image testCV ⟨1077, 1077, 120, 100, 1⟩)).1
        (testCV.shape (_preprocess_image testCV ⟨1077, 1077, 120, 100, 1⟩)).2 = 639 ∧
    639 ≠ MAX_IMAGE_DIMENSION := by
  refine ⟨by decide, ?_, by decide⟩
  with_unfolding_all decide

/-- **C3, amended**: an input whose longer side is at most the cap
passes through unchanged; an input whose longer side exceeds the cap
(and is at most `2 ^ 32`) is resized with one shared binary64 scale
for both dimensions, and the longer side of the result is 639 or
640 — equal to the cap only up to the one-pixel floating-point
truncation loss. -/
theorem resize_longer_side_amended {Img : Type} (cv : CV Img) (img : Img)
    (hres : ∀ (i : Img) (wh : ℕ × ℕ), cv.shape (cv.resize i wh) = (wh.2, wh.1)) :
    (max (cv.shape img).1 (cv.shape img).2 ≤ MAX_IMAGE_DIMENSION →
      _preprocess_image cv img = img) ∧
    (MAX_IMAGE_DIMENSION < max (cv.shape img).1 (cv.shape img).2 →
      max (cv.shape img).1 (cv.shape img).2 ≤ 2 ^ 32 →
      max (cv.shape (_preprocess_image cv img)).1
        (cv.shape (_preprocess_image cv img)).2 = 639 ∨
      max (cv.shape (_preprocess_image cv img)).1
        (cv.shape (_preprocess_image cv img)).2 = 640) := by
  constructor
  · intro hle
    simp only [_preprocess_image]
    rw [if_neg (not_lt.mpr hle)]
  · intro hgt hle
    have hM : ((MAX_IMAGE_DIMENSION : ℕ) : ℚ) = 640 := by
      norm_num [MAX_IMAGE_DIMENSION]
    have hgt' : 640 < max (cv.shape img).1 (cv.shape img).2 := by
      have : MAX_IMAGE_DIMENSION = 640 := rfl
      omega
    simp only [_preprocess_image]
    rw [if_pos hgt, hres, hM]
    exact newdim_max_cases (cv.shape img).1 (cv.shape img).2 hgt' hle

/-- Witness for the amended C3: a 600 × 400 image passes through
unchanged; the 1077 × 1077 image resizes to longer side 639 or
640. -/
theorem resize_longer_side_amended_witness :
    _preprocess_image testCV ⟨600, 400, 120, 100, 1⟩ = ⟨600, 400, 120, 100, 1⟩ ∧
    (max (testCV.shape (_preprocess_image testCV ⟨1077, 1077, 120, 100, 1⟩)).1
        (testCV.shape (_preprocess_image testCV ⟨1077, 1077, 120, 100, 1⟩)).2 = 639 ∨
     max (testCV.shape (_preprocess_image testCV ⟨1077, 1077, 120, 100, 1⟩)).1
        (testCV.shape (_preprocess_image testCV ⟨1077, 1077, 120, 100, 1⟩)).2 = 640) :=
  ⟨(resize_longer_side_amended testCV ⟨600, 400, 120, 100, 1⟩ (fun i wh => rfl)).1
      (by decide),
   (resize_longer_side_amended testCV ⟨1077, 1077, 120, 100, 1⟩ (fun i wh => rfl)).2
      (by decide) (by decide)⟩
